import Mathlib

/-!
Verification of the File-Converter repository's conversion core against its
specification.  The Python sources (src/converter.py, src/main.py) are shallowly
embedded below: `pathlib.Path` values become lists of path components, PIL
images become a mode/size/pixel-function record, and the filesystem is an
oracle passed in explicitly.  Filesystem side effects performed by
`FileConverter.convert` are recorded as an explicit effect trace.
-/

deriving instance DecidableEq for Except

namespace FileConv

/-! ## Paths

A `pathlib.Path` is modelled by its `parts`: the list of path components.
`pathlib` normalizes away empty and `.` components, so `Path('')` and
`Path('.')` are both modelled as `⟨[]⟩`.  `name` of a path with no components
is the empty string, matching `Path('.').name == ''`. -/

structure FsPath where
  comps : List String
deriving DecidableEq, Repr

/-- Python `Path.name`: the final component (empty for the bare current
directory). -/
def FsPath.name (p : FsPath) : String := p.comps.getLast?.getD ""

/-- Python `Path.parent`: drop the final component. -/
def FsPath.parent (p : FsPath) : FsPath := ⟨p.comps.dropLast⟩

/-- Python `dir / filename`: append one component. -/
def FsPath.join (p : FsPath) (n : String) : FsPath := ⟨p.comps ++ [n]⟩

/-! ## String helpers used by the source -/

/-- Python `str.lower()` (the format tokens involved are ASCII), realized on
the character list so that it computes by kernel reduction. -/
def strLower (s : String) : String := (s.toList.map Char.toLower).asString

/-- Python `str.lstrip('.')`: drop all leading dots. -/
def lstripDot (s : String) : String := (s.toList.dropWhile (fun c => c = '.')).asString

/-- Index of the last `'.'` in a character list, if any. -/
def lastDotIdx : List Char → Option Nat
  | [] => none
  | c :: rest =>
    match lastDotIdx rest with
    | some i => some (i + 1)
    | none => if c = '.' then some 0 else none

/-- Python `Path.suffix` on a file name: the substring from the last dot,
provided that dot is neither the first nor the last character; otherwise the
empty string (pathlib's rule `0 < i < len(name) - 1`). -/
def suffixOf (name : String) : String :=
  match lastDotIdx name.toList with
  | some i => if 0 < i ∧ i + 1 < name.toList.length then (name.toList.drop i).asString else ""
  | none => ""

/-- Python `Path.stem` on a file name: the part before the last dot under the
same proviso as `suffixOf`, otherwise the whole name. -/
def stemOf (name : String) : String :=
  match lastDotIdx name.toList with
  | some i => if 0 < i ∧ i + 1 < name.toList.length then (name.toList.take i).asString else name
  | none => name

/-- Python `Path.with_suffix(suf)`: replace the final component's suffix
(append when there is none). -/
def FsPath.withSuffix (p : FsPath) (suf : String) : FsPath :=
  ⟨p.comps.dropLast ++ [stemOf p.name ++ suf]⟩

/-! ## Format registry and dispatcher (src/converter.py lines 24-129) -/

/-- The `supported_formats` set defined in `FileConverter.__init__`. -/
def supported_formats : List String :=
  ["jpg", "jpeg", "png", "gif", "bmp", "ico", "webp", "tiff"]

/-- The single conversion routine every table entry points at
(`FileConverter._image_to_image`). -/
inductive Routine where
  | imageToImage
deriving DecidableEq, Repr

/-- The literal `methods` dictionary of `_get_conversion_method`
(src/converter.py lines 74-127), in source order. -/
def methods : List ((String × String) × Routine) := [
  (("jpg", "png"), .imageToImage),
  (("jpeg", "png"), .imageToImage),
  (("gif", "png"), .imageToImage),
  (("bmp", "png"), .imageToImage),
  (("ico", "png"), .imageToImage),
  (("webp", "png"), .imageToImage),
  (("tiff", "png"), .imageToImage),

  (("png", "jpg"), .imageToImage),
  (("png", "jpeg"), .imageToImage),
  (("png", "gif"), .imageToImage),
  (("png", "bmp"), .imageToImage),
  (("png", "ico"), .imageToImage),
  (("png", "webp"), .imageToImage),
  (("png", "tiff"), .imageToImage),

  (("jpg", "gif"), .imageToImage),
  (("jpeg", "gif"), .imageToImage),
  (("gif", "jpg"), .imageToImage),
  (("gif", "jpeg"), .imageToImage),
  (("gif", "bmp"), .imageToImage),
  (("gif", "ico"), .imageToImage),
  (("gif", "webp"), .imageToImage),
  (("gif", "tiff"), .imageToImage),

  (("bmp", "jpg"), .imageToImage),
  (("bmp", "jpeg"), .imageToImage),
  (("bmp", "gif"), .imageToImage),
  (("bmp", "ico"), .imageToImage),
  (("bmp", "webp"), .imageToImage),
  (("bmp", "tiff"), .imageToImage),

  (("ico", "jpg"), .imageToImage),
  (("ico", "jpeg"), .imageToImage),
  (("ico", "gif"), .imageToImage),
  (("ico", "bmp"), .imageToImage),
  (("ico", "webp"), .imageToImage),
  (("ico", "tiff"), .imageToImage),

  (("webp", "jpg"), .imageToImage),
  (("webp", "jpeg"), .imageToImage),
  (("webp", "gif"), .imageToImage),
  (("webp", "bmp"), .imageToImage),
  (("webp", "ico"), .imageToImage),
  (("webp", "tiff"), .imageToImage),

  (("tiff", "jpg"), .imageToImage),
  (("tiff", "jpeg"), .imageToImage),
  (("tiff", "gif"), .imageToImage),
  (("tiff", "bmp"), .imageToImage),
  (("tiff", "ico"), .imageToImage),
  (("tiff", "webp"), .imageToImage)
]

/-- `FileConverter._get_conversion_method`: `methods.get((input_format,
output_format))`, a plain dictionary lookup returning `None` when absent. -/
def getConversionMethod (input_format output_format : String) : Option Routine :=
  (methods.find? (fun e => decide (e.1 = (input_format, output_format)))).map Prod.snd

/-! ## Images (the PIL objects manipulated by `_image_to_image`)

A decoded image is modelled by its mode string, its pixel dimensions, and a
pixel accessor giving the red/green/blue/alpha channel view of each
coordinate (for `L`/`LA` images the decoder presents the luminance value on
all three color channels; for modes without alpha the accessor reports
alpha 255). -/

structure Px where
  r : Nat
  g : Nat
  b : Nat
  a : Nat
deriving DecidableEq, Repr

structure Img where
  mode : String
  size : Nat × Nat
  px : Nat → Nat → Px

/-- The PIL resampling filters (`Image.Resampling`). -/
inductive Resampling where
  | nearest
  | box
  | bilinear
  | hamming
  | bicubic
  | lanczos
deriving DecidableEq, Repr

/-- The pixel computation performed by a PIL resampling filter is an external
codec primitive (out of scope per spec section 1); it is taken as an abstract
parameter mapping filter, source size, destination size and source pixels to
destination pixels. -/
def ResampleKernel : Type :=
  Resampling → Nat × Nat → Nat × Nat → (Nat → Nat → Px) → Nat → Nat → Px

/-- PIL `img.resize((w, h), filt)`: a new image of the requested size, same
mode, pixels computed by the filter. -/
def Img.resize (kernel : ResampleKernel) (img : Img) (wh : Nat × Nat)
    (filt : Resampling) : Img :=
  ⟨img.mode, wh, kernel filt img.size wh img.px⟩

/-- PIL's 8-bit fixed-point `MULDIV255(x, y)` rounding used by `Image.paste`:
`t = x*y + 128; (t + (t >> 8)) >> 8`. -/
def muldiv255 (x y : Nat) : Nat :=
  (x * y + 128 + (x * y + 128) / 256) / 256

/-- PIL's per-channel `BLEND(mask, bg, fg)` used by `Image.paste` with a mask:
the background weighted by `255 - mask` plus the source weighted by `mask`. -/
def blendMask (mask bg fg : Nat) : Nat :=
  muldiv255 bg (255 - mask) + muldiv255 fg mask

/-- Lines 137-143 of src/converter.py: `background = Image.new('RGB',
img.size, (255, 255, 255)); background.paste(img, mask=img.split()[-1])`.
`img.split()[-1]` is the alpha channel (the last band of both `RGBA` and `LA`,
the two modes this branch handles with the identical paste call); the result
is an `RGB` image of the same size whose channels blend the source over the
white (255) background using the alpha channel as mask. -/
def pasteOnWhite (img : Img) : Img :=
  { mode := "RGB"
    size := img.size
    px := fun x y =>
      ⟨blendMask (img.px x y).a 255 (img.px x y).r,
       blendMask (img.px x y).a 255 (img.px x y).g,
       blendMask (img.px x y).a 255 (img.px x y).b,
       255⟩ }

/-- `FileConverter._image_to_image` lines 134-146: the mode/size normalization
applied to the decoded image before `img.save(output_path, ...)`.  The branch
keys on `output_path.suffix.lower()`: composite onto white for the JPEG family
when the mode is `RGBA` or `LA`, else resize to 256 by 256 with
`Image.Resampling.LANCZOS` for `.ico`, else leave the image unchanged. -/
def imageToImage (kernel : ResampleKernel) (outputPath : FsPath) (img : Img) : Img :=
  if (strLower (suffixOf outputPath.name) = ".jpg"
        ∨ strLower (suffixOf outputPath.name) = ".jpeg")
      ∧ (img.mode = "RGBA" ∨ img.mode = "LA") then
    pasteOnWhite img
  else if strLower (suffixOf outputPath.name) = ".ico" then
    Img.resize kernel img (256, 256) Resampling.lanczos
  else
    img

/-! ## `FileConverter.convert` (src/converter.py lines 30-70) -/

/-- The `ConversionError` messages raised by `convert` and `_image_to_image`,
one constructor per interpolated message string:
`unsupportedFormat fmt` is "Unsupported output format: <fmt>";
`sameFormat ext` is "Input and output formats are the same: <ext>";
`pairNotSupported inExt fmt` is "Conversion from <inExt> to <fmt> is not supported";
`imageFailure msg` is "Failed to convert image: <msg>". -/
inductive ConvError where
  | unsupportedFormat (fmt : String)
  | sameFormat (ext : String)
  | pairNotSupported (inExt fmt : String)
  | imageFailure (msg : String)
deriving DecidableEq, Repr

/-- Filesystem side effects performed by `convert`:
`mkdirParents p` is `p.mkdir(parents=True, exist_ok=True)` (line 60);
`save p encodedAs img` is `img.save(p, optimize=True, quality=95)` (line 148),
where `encodedAs` records the encoder PIL selects for a `save` call with no
explicit format argument: the one registered for the file name's extension,
matched case-insensitively. -/
inductive Effect where
  | mkdirParents (p : FsPath)
  | save (p : FsPath) (encodedAs : String) (img : Img)

/-- The filesystem oracle: `Path.is_file()` (true exactly for existing regular
files). -/
structure FS where
  isFile : FsPath → Bool

/-- Outcome of one `convert` call: the returned path or the raised
`ConversionError`, together with the trace of filesystem effects performed. -/
structure ConvertResult where
  out : Except ConvError FsPath
  effects : List Effect

/-- Line 45 of src/converter.py: `input_ext =
input_path.suffix.lower().lstrip('.')`. -/
def inputExtOf (p : FsPath) : String := lstripDot (strLower (suffixOf p.name))

/-- Lines 50-57 of src/converter.py, the output-path determination: an
`output_dir` that is an existing regular file is used as-is; any other given
`output_dir` is joined with `f"<input stem>.<output_format>"`; with no
`output_dir` the input path's suffix is replaced by `'.<output_format>'`.
Note the raw `output_format` string (not lower-cased) is used in the name. -/
def resolveOutputPath (fs : FS) (inputPath : FsPath) (outputFormat : String)
    (outputDir : Option FsPath) : FsPath :=
  match outputDir with
  | some d => if fs.isFile d then d else d.join (stemOf inputPath.name ++ "." ++ outputFormat)
  | none => inputPath.withSuffix ("." ++ outputFormat)

/-- `FileConverter.convert` (lines 42-70), with the decode of the input file
(`Image.open`, an external codec call inside `_image_to_image`'s `try`) passed
in as `decoded`; a decode failure is wrapped as the `imageFailure` error, after
the directory creation of line 60 has already run.  The effect trace records
line 60's `mkdir(parents=True, exist_ok=True)` and line 148's `img.save`. -/
def convert (kernel : ResampleKernel) (fs : FS) (inputPath : FsPath)
    (outputFormat : String) (outputDir : Option FsPath)
    (decoded : Except String Img) : ConvertResult :=
  if strLower outputFormat ∉ supported_formats then
    ⟨.error (.unsupportedFormat outputFormat), []⟩
  else if inputExtOf inputPath = strLower outputFormat then
    ⟨.error (.sameFormat (inputExtOf inputPath)), []⟩
  else
    match getConversionMethod (inputExtOf inputPath) (strLower outputFormat) with
    | none =>
      ⟨.error (.pairNotSupported (inputExtOf inputPath) outputFormat),
       [.mkdirParents (resolveOutputPath fs inputPath outputFormat outputDir).parent]⟩
    | some _ =>
      match decoded with
      | .error e =>
        ⟨.error (.imageFailure e),
         [.mkdirParents (resolveOutputPath fs inputPath outputFormat outputDir).parent]⟩
      | .ok img =>
        ⟨.ok (resolveOutputPath fs inputPath outputFormat outputDir),
         [.mkdirParents (resolveOutputPath fs inputPath outputFormat outputDir).parent,
          .save (resolveOutputPath fs inputPath outputFormat outputDir)
            (strLower (suffixOf (resolveOutputPath fs inputPath outputFormat outputDir).name))
            (imageToImage kernel (resolveOutputPath fs inputPath outputFormat outputDir) img)]⟩

/-! ## The batch orchestrator (src/main.py) -/

/-- Python `str.strip()` on a batch-list line (trailing newline included):
drop whitespace from both ends. -/
def pyStrip (s : String) : String :=
  ((s.toList.dropWhile Char.isWhitespace).reverse.dropWhile Char.isWhitespace).reverse.asString

/-- Split a character list at every `'/'`. -/
def splitSlash : List Char → List (List Char)
  | [] => [[]]
  | c :: rest =>
    if c = '/' then
      [] :: splitSlash rest
    else
      match splitSlash rest with
      | [] => [[c]]
      | g :: gs => (c :: g) :: gs

/-- Python `Path(s)` for the relative path strings read from a batch-list
file: split on `/` and drop the empty and `.` components that pathlib
normalizes away.  In particular `Path('')` is `Path('.')`, the path with no
parts. -/
def pathOfString (s : String) : FsPath :=
  ⟨((splitSlash s.toList).map List.asString).filter (fun c => ¬(c = "" ∨ c = "."))⟩

/-- `get_input_files` batch branch (src/main.py lines 121-127): for each line
of the batch file, `path = Path(line.strip())`; append it when
`path.exists()`.  `fsExists` is the `Path.exists()` oracle. -/
def getInputFilesBatch (fsExists : FsPath → Bool) : List String → List FsPath
  | [] => []
  | line :: rest =>
    if fsExists (pathOfString (pyStrip line)) then
      pathOfString (pyStrip line) :: getInputFilesBatch fsExists rest
    else
      getInputFilesBatch fsExists rest

/-- The per-file outcome records of the conversion loop (src/main.py lines
182-192): each file is handed to `converter.convert` — modelled by the oracle
`conv`, whose `Except.error` covers every exception the bare `except
Exception` catches — and the outcome logged for it is recorded; the loop body
has no early exit. -/
def batchRecords {e : Type} (conv : FsPath → Except e FsPath) :
    List FsPath → List (FsPath × Except e FsPath)
  | [] => []
  | f :: rest => (f, conv f) :: batchRecords conv rest

/-- The running `success_count` of src/main.py lines 181-190: starts at 0 and
is incremented exactly when `converter.convert` returns. -/
def successCountAux {e : Type} (conv : FsPath → Except e FsPath) (acc : Nat) :
    List FsPath → Nat
  | [] => acc
  | f :: rest =>
    match conv f with
    | .ok _ => successCountAux conv (acc + 1) rest
    | .error _ => successCountAux conv acc rest

def successCount {e : Type} (conv : FsPath → Except e FsPath) (files : List FsPath) : Nat :=
  successCountAux conv 0 files

/-- Lines 168-175 of src/main.py: the output format used by the loop is the
`--format` argument when given; otherwise, with exactly one input file and an
`--output` path, it is inferred as `args.output.suffix.lstrip('.').lower()`;
otherwise no format is determined (and `main` returns 1). -/
def resolveFormat (files : List FsPath) (fmtArg : Option String)
    (outputArg : Option FsPath) : Option String :=
  match fmtArg with
  | some f => some f
  | none =>
    if files.length = 1 then
      match outputArg with
      | some o => some (strLower (lstripDot (suffixOf o.name)))
      | none => none
    else
      none

/-- The exit code of `main` (src/main.py lines 147-195): 1 when argument
validation fails, when no input files are found, or when no output format can
be determined; otherwise run the loop and return `0 if success_count > 0 else
1`.  `argsValid` is the outcome of `validate_args`, `files` the list produced
by `get_input_files`, and `conv` the `converter.convert` oracle for the chosen
format.  (The `KeyboardInterrupt` path is outside this sequential model.) -/
def mainRun (argsValid : Bool) (files : List FsPath) (fmtArg : Option String)
    (outputArg : Option FsPath)
    (conv : String → FsPath → Except ConvError FsPath) : Nat :=
  if argsValid = false then 1
  else if files = [] then 1
  else
    match resolveFormat files fmtArg outputArg with
    | none => 1
    | some fmt => if 0 < successCount (conv fmt) files then 0 else 1

/-! ## Concrete fixtures used by witnesses and counterexamples -/

/-- A trivial resampling kernel instantiating the abstract codec primitive. -/
def kernel0 : ResampleKernel := fun _ _ _ p => p

/-- A plain opaque 1 by 1 RGB image. -/
def img0 : Img := ⟨"RGB", (1, 1), fun _ _ => ⟨0, 0, 0, 255⟩⟩

/-- A 1 by 1 RGBA image that is fully transparent. -/
def imgT : Img := ⟨"RGBA", (1, 1), fun _ _ => ⟨7, 8, 9, 0⟩⟩

/-- A filesystem on which no path is an existing regular file. -/
def fsNone : FS := ⟨fun _ => false⟩

/-- A filesystem on which exactly `target.png` is an existing regular file. -/
def fsTarget : FS := ⟨fun p => decide (p = (⟨["target.png"]⟩ : FsPath))⟩

/-- Boolean success test on an `Except` value. -/
def isOkB {e a : Type} : Except e a → Bool
  | .ok _ => true
  | .error _ => false

/-! ## Claim C1: the dispatch table -/

/-- The jpg/jpeg alias family of a format token. -/
def family (f : String) : String := if f = "jpeg" then "jpg" else f

/-- The eight ordered pairs of supported, distinct-family tokens that the
`methods` dictionary of `_get_conversion_method` does not contain. -/
def missingJpegPairs : List (String × String) :=
  [("jpg", "bmp"), ("jpg", "ico"), ("jpg", "webp"), ("jpg", "tiff"),
   ("jpeg", "bmp"), ("jpeg", "ico"), ("jpeg", "webp"), ("jpeg", "tiff")]

/-- A successful dispatcher lookup means the queried pair is one of the
dictionary's keys. -/
theorem getConversionMethod_isSome_mem (f1 f2 : String) :
    (getConversionMethod f1 f2).isSome = true → (f1, f2) ∈ methods.map Prod.fst := by
  intro h
  unfold getConversionMethod at h
  cases hf : methods.find? (fun e => decide (e.1 = (f1, f2))) with
  | none => rw [hf] at h; simp at h
  | some e =>
    have hmem := List.mem_of_find?_eq_some hf
    have hp := List.find?_some hf
    simp only [decide_eq_true_eq] at hp
    rw [← hp]
    exact List.mem_map_of_mem Prod.fst hmem

/-- Claim C1 (counterexample): `jpg` and `bmp` are distinct supported formats
from different families, yet `_get_conversion_method('jpg', 'bmp')` returns
`None`, contradicting the claim that every such pair has a routine. -/
theorem C1_counterexample :
    "jpg" ∈ supported_formats ∧ "bmp" ∈ supported_formats
    ∧ ("jpg" : String) ≠ "bmp" ∧ family "jpg" ≠ family "bmp"
    ∧ getConversionMethod "jpg" "bmp" = none := by decide

/-- Claim C1 (amended): `_get_conversion_method` returns a routine for an
ordered pair of supported tokens exactly when the two tokens lie in distinct
jpg/jpeg-alias families and the pair is not one of the eight absent pairs with
`jpg` or `jpeg` as input and `bmp`, `ico`, `webp` or `tiff` as output;
identity-family pairs and pairs involving an unsupported token always return
`None`. -/
theorem C1_amended_dispatch :
    (∀ f1 ∈ supported_formats, ∀ f2 ∈ supported_formats,
      ((getConversionMethod f1 f2).isSome = true ↔
        family f1 ≠ family f2 ∧ (f1, f2) ∉ missingJpegPairs))
    ∧ (∀ f1 f2 : String, f2 ∉ supported_formats → getConversionMethod f1 f2 = none)
    ∧ (∀ f1 f2 : String, f1 ∉ supported_formats → getConversionMethod f1 f2 = none) := by
  refine ⟨by decide, ?_, ?_⟩
  · intro f1 f2 hf2
    cases ho : getConversionMethod f1 f2 with
    | none => rfl
    | some r =>
      exfalso
      have hmem : (f1, f2) ∈ methods.map Prod.fst :=
        getConversionMethod_isSome_mem f1 f2 (by rw [ho]; rfl)
      have hall : ∀ pr ∈ methods.map Prod.fst,
          pr.1 ∈ supported_formats ∧ pr.2 ∈ supported_formats := by decide
      exact hf2 (hall _ hmem).2
  · intro f1 f2 hf1
    cases ho : getConversionMethod f1 f2 with
    | none => rfl
    | some r =>
      exfalso
      have hmem : (f1, f2) ∈ methods.map Prod.fst :=
        getConversionMethod_isSome_mem f1 f2 (by rw [ho]; rfl)
      have hall : ∀ pr ∈ methods.map Prod.fst,
          pr.1 ∈ supported_formats ∧ pr.2 ∈ supported_formats := by decide
      exact hf1 (hall _ hmem).1

/-- Claim C1 (witness): the amended characterization applied at concrete
inputs: the supported distinct pair `(png, bmp)` has a routine, while an
unsupported output or input token yields `None`. -/
theorem C1_amended_dispatch_witness :
    (getConversionMethod "png" "bmp").isSome = true
    ∧ getConversionMethod "png" "txt" = none
    ∧ getConversionMethod "txt" "png" = none := by
  refine ⟨?_, C1_amended_dispatch.2.1 "png" "txt" (by decide),
    C1_amended_dispatch.2.2 "txt" "png" (by decide)⟩
  exact (C1_amended_dispatch.1 "png" (by decide) "bmp" (by decide)).mpr
    ⟨by decide, by decide⟩

/-! ## Claim C2: rejection versus filesystem effects -/

/-- Claim C2 (counterexample): converting `a.jpg` to `bmp` (a pair with no
registered routine) into the directory `outdir` raises the pair-not-supported
error, yet its effect trace is not empty: line 60's
`mkdir(parents=True, exist_ok=True)` on `outdir` ran before the dispatch
check of line 63, contradicting "no output directory is created when the pair
has no registered routine". -/
theorem C2_counterexample :
    (convert kernel0 fsNone ⟨["a.jpg"]⟩ "bmp" (some ⟨["outdir"]⟩) (Except.ok img0)).out
      = Except.error (ConvError.pairNotSupported "jpg" "bmp")
    ∧ (convert kernel0 fsNone ⟨["a.jpg"]⟩ "bmp" (some ⟨["outdir"]⟩) (Except.ok img0)).effects
      = [Effect.mkdirParents ⟨["outdir"]⟩]
    ∧ ([Effect.mkdirParents ⟨["outdir"]⟩] : List Effect) ≠ [] := by
  refine ⟨by decide, by rfl, by simp⟩

/-- Claim C2 (amended): `convert` raises the unsupported-output-format error
and the identity-format error before any filesystem side effect; when the
format pair has no registered routine it raises the corresponding error before
any file write, but only after creating the resolved output path's parent
directory (line 60 runs before the dispatch check of line 63). -/
theorem C2_amended_fail_fast :
    ∀ (kernel : ResampleKernel) (fs : FS) (inP : FsPath) (fmt : String)
      (dirOpt : Option FsPath) (decoded : Except String Img),
    (strLower fmt ∉ supported_formats →
      convert kernel fs inP fmt dirOpt decoded
        = ⟨.error (.unsupportedFormat fmt), []⟩)
    ∧ (strLower fmt ∈ supported_formats → inputExtOf inP = strLower fmt →
      convert kernel fs inP fmt dirOpt decoded
        = ⟨.error (.sameFormat (inputExtOf inP)), []⟩)
    ∧ (strLower fmt ∈ supported_formats → inputExtOf inP ≠ strLower fmt →
      getConversionMethod (inputExtOf inP) (strLower fmt) = none →
      convert kernel fs inP fmt dirOpt decoded
        = ⟨.error (.pairNotSupported (inputExtOf inP) fmt),
           [.mkdirParents (resolveOutputPath fs inP fmt dirOpt).parent]⟩) := by
  intro kernel fs inP fmt dirOpt decoded
  refine ⟨fun h1 => ?_, fun h1 h2 => ?_, fun h1 h2 h3 => ?_⟩
  · simp [convert, h1]
  · simp [convert, h1, h2]
  · simp [convert, h1, h2, h3]

/-- Claim C2 (witness): the three rejection shapes at concrete inputs — an
unsupported format and an identity conversion produce empty effect traces,
while the unregistered pair `jpg` to `bmp` leaves the created directory in its
trace. -/
theorem C2_amended_fail_fast_witness :
    convert kernel0 fsNone ⟨["a.jpg"]⟩ "txt" none (Except.ok img0)
      = ⟨.error (.unsupportedFormat "txt"), []⟩
    ∧ convert kernel0 fsNone ⟨["a.png"]⟩ "png" none (Except.ok img0)
      = ⟨.error (.sameFormat "png"), []⟩
    ∧ convert kernel0 fsNone ⟨["a.jpg"]⟩ "bmp" (some ⟨["outdir"]⟩) (Except.ok img0)
      = ⟨.error (.pairNotSupported "jpg" "bmp"),
         [.mkdirParents ⟨["outdir"]⟩]⟩ := by
  have h1 := (C2_amended_fail_fast kernel0 fsNone ⟨["a.jpg"]⟩ "txt" none
    (Except.ok img0)).1 (by decide)
  have h2 := (C2_amended_fail_fast kernel0 fsNone ⟨["a.png"]⟩ "png" none
    (Except.ok img0)).2.1 (by decide) (by decide)
  have h3 := (C2_amended_fail_fast kernel0 fsNone ⟨["a.jpg"]⟩ "bmp"
    (some ⟨["outdir"]⟩) (Except.ok img0)).2.2 (by decide) (by decide) (by decide)
  rw [show inputExtOf (⟨["a.png"]⟩ : FsPath) = "png" from by decide] at h2
  rw [show inputExtOf (⟨["a.jpg"]⟩ : FsPath) = "jpg" from by decide] at h3
  rw [show (resolveOutputPath fsNone ⟨["a.jpg"]⟩ "bmp"
    (some ⟨["outdir"]⟩)).parent = (⟨["outdir"]⟩ : FsPath) from by decide] at h3
  exact ⟨h1, h2, h3⟩

/-! ## Claim C3: output-path resolution -/

/-- Claim C3: the resolved output path is the given `output_dir` itself when
that is an existing regular file; `output_dir` joined with the input stem
plus a dot plus the requested format when `output_dir` is given but is not an
existing regular file; and the input path with its extension replaced by a dot
plus the requested format when no `output_dir` is given — and a successful
`convert` returns exactly this resolved path. -/
theorem C3_output_path_resolution :
    ∀ (fs : FS) (inP : FsPath) (fmt : String),
    (∀ d : FsPath, fs.isFile d = true →
      resolveOutputPath fs inP fmt (some d) = d)
    ∧ (∀ d : FsPath, fs.isFile d = false →
      resolveOutputPath fs inP fmt (some d)
        = d.join (stemOf inP.name ++ "." ++ fmt))
    ∧ resolveOutputPath fs inP fmt none = inP.withSuffix ("." ++ fmt)
    ∧ ∀ (kernel : ResampleKernel) (dirOpt : Option FsPath)
        (decoded : Except String Img) (p : FsPath),
      (convert kernel fs inP fmt dirOpt decoded).out = Except.ok p →
      p = resolveOutputPath fs inP fmt dirOpt := by
  intro fs inP fmt
  refine ⟨fun d h => by simp [resolveOutputPath, h],
    fun d h => by simp [resolveOutputPath, h], rfl, ?_⟩
  intro kernel dirOpt decoded p h
  by_cases h1 : strLower fmt ∈ supported_formats
  · by_cases h2 : inputExtOf inP = strLower fmt
    · simp [convert, h1, h2] at h
    · cases h3 : getConversionMethod (inputExtOf inP) (strLower fmt) with
      | none => simp [convert, h1, h2, h3] at h
      | some r =>
        cases decoded with
        | error e => simp [convert, h1, h2, h3] at h
        | ok img =>
          simp [convert, h1, h2, h3] at h
          exact h.symm
  · simp [convert, h1] at h

/-- Claim C3 (witness): the three resolution cases at concrete inputs, and a
successful concrete `convert` returning the resolved path. -/
theorem C3_output_path_resolution_witness :
    fsTarget.isFile ⟨["target.png"]⟩ = true
    ∧ resolveOutputPath fsTarget ⟨["a.jpg"]⟩ "png" (some ⟨["target.png"]⟩)
        = ⟨["target.png"]⟩
    ∧ fsTarget.isFile ⟨["outdir"]⟩ = false
    ∧ resolveOutputPath fsTarget ⟨["a.jpg"]⟩ "png" (some ⟨["outdir"]⟩)
        = ⟨["outdir", "a.png"]⟩
    ∧ resolveOutputPath fsTarget ⟨["a.jpg"]⟩ "png" none = ⟨["a.png"]⟩
    ∧ (convert kernel0 fsTarget ⟨["a.jpg"]⟩ "png" none (Except.ok img0)).out
        = Except.ok ⟨["a.png"]⟩
    ∧ (⟨["a.png"]⟩ : FsPath) = resolveOutputPath fsTarget ⟨["a.jpg"]⟩ "png" none := by
  refine ⟨by decide,
    (C3_output_path_resolution fsTarget ⟨["a.jpg"]⟩ "png").1 _ (by decide),
    by decide,
    (C3_output_path_resolution fsTarget ⟨["a.jpg"]⟩ "png").2.1 _ (by decide),
    (C3_output_path_resolution fsTarget ⟨["a.jpg"]⟩ "png").2.2.1,
    by decide,
    (C3_output_path_resolution fsTarget ⟨["a.jpg"]⟩ "png").2.2.2 kernel0 none
      (Except.ok img0) ⟨["a.png"]⟩ (by decide)⟩

/-! ## Claim C4: alpha compositing for the JPEG family -/

/-- Compositing any foreground channel over the white background with a fully
transparent mask yields pure white. -/
theorem blendMask_transparent (fg : Nat) : blendMask 0 255 fg = 255 := by
  simp [blendMask, muldiv255]

/-- Claim C4: when the output path's lower-cased suffix is `.jpg` or `.jpeg`
and the decoded image's mode is `RGBA` or `LA`, the executor composites the
image onto an opaque white background of the same pixel dimensions with the
image's own alpha channel as blend mask, producing an opaque `RGB` image; in
particular a fully transparent pixel becomes pure white (255, 255, 255). -/
theorem C4_jpeg_alpha_composite :
    ∀ (kernel : ResampleKernel) (outPath : FsPath) (img : Img),
    (strLower (suffixOf outPath.name) = ".jpg"
      ∨ strLower (suffixOf outPath.name) = ".jpeg") →
    (img.mode = "RGBA" ∨ img.mode = "LA") →
    (imageToImage kernel outPath img).mode = "RGB"
    ∧ (imageToImage kernel outPath img).size = img.size
    ∧ (∀ x y, (imageToImage kernel outPath img).px x y =
        ⟨blendMask (img.px x y).a 255 (img.px x y).r,
         blendMask (img.px x y).a 255 (img.px x y).g,
         blendMask (img.px x y).a 255 (img.px x y).b, 255⟩)
    ∧ (∀ x y, ((imageToImage kernel outPath img).px x y).a = 255)
    ∧ (∀ x y, (img.px x y).a = 0 →
        (imageToImage kernel outPath img).px x y = ⟨255, 255, 255, 255⟩) := by
  intro kernel outPath img h1 h2
  have hb : imageToImage kernel outPath img = pasteOnWhite img := by
    unfold imageToImage
    rw [if_pos ⟨h1, h2⟩]
  rw [hb]
  refine ⟨rfl, rfl, fun x y => rfl, fun x y => rfl, fun x y ha => ?_⟩
  show Px.mk _ _ _ _ = _
  rw [ha, blendMask_transparent, blendMask_transparent, blendMask_transparent]

/-- Claim C4 (witness): the fully transparent 1 by 1 RGBA image converted
toward `x.jpg` becomes an opaque RGB image whose pixel is pure white. -/
theorem C4_jpeg_alpha_composite_witness :
    strLower (suffixOf (FsPath.name ⟨["x.jpg"]⟩)) = ".jpg"
    ∧ imgT.mode = "RGBA"
    ∧ (imgT.px 0 0).a = 0
    ∧ (imageToImage kernel0 ⟨["x.jpg"]⟩ imgT).mode = "RGB"
    ∧ (imageToImage kernel0 ⟨["x.jpg"]⟩ imgT).size = (1, 1)
    ∧ (imageToImage kernel0 ⟨["x.jpg"]⟩ imgT).px 0 0 = ⟨255, 255, 255, 255⟩ := by
  refine ⟨by decide, rfl, rfl, ?_, ?_, ?_⟩
  · exact (C4_jpeg_alpha_composite kernel0 ⟨["x.jpg"]⟩ imgT
      (Or.inl (by decide)) (Or.inl rfl)).1
  · exact (C4_jpeg_alpha_composite kernel0 ⟨["x.jpg"]⟩ imgT
      (Or.inl (by decide)) (Or.inl rfl)).2.1
  · exact (C4_jpeg_alpha_composite kernel0 ⟨["x.jpg"]⟩ imgT
      (Or.inl (by decide)) (Or.inl rfl)).2.2.2.2 0 0 rfl

/-! ## Claim C5: fixed 256 by 256 resize for the icon format -/

/-- Claim C5: when the output path's lower-cased suffix is `.ico`, the
executor applies `img.resize((256, 256), Image.Resampling.LANCZOS)` to the
decoded image regardless of its dimensions or aspect ratio, so the image
handed to the encoder is exactly 256 by 256. -/
theorem C5_ico_resize :
    ∀ (kernel : ResampleKernel) (outPath : FsPath) (img : Img),
    strLower (suffixOf outPath.name) = ".ico" →
    imageToImage kernel outPath img
      = Img.resize kernel img (256, 256) Resampling.lanczos
    ∧ (imageToImage kernel outPath img).size = (256, 256) := by
  intro kernel outPath img h
  have hb : imageToImage kernel outPath img
      = Img.resize kernel img (256, 256) Resampling.lanczos := by
    unfold imageToImage
    rw [h]
    rw [if_neg, if_pos rfl]
    rintro ⟨h3, -⟩
    revert h3
    decide
  exact ⟨hb, by rw [hb]; rfl⟩

/-- Claim C5 (witness): a concrete 1 by 1 image routed toward `o.ico` comes
out as the Lanczos resize to exactly 256 by 256. -/
theorem C5_ico_resize_witness :
    strLower (suffixOf (FsPath.name ⟨["o.ico"]⟩)) = ".ico"
    ∧ imageToImage kernel0 ⟨["o.ico"]⟩ img0
        = Img.resize kernel0 img0 (256, 256) Resampling.lanczos
    ∧ (imageToImage kernel0 ⟨["o.ico"]⟩ img0).size = (256, 256) := by
  refine ⟨by decide, (C5_ico_resize kernel0 ⟨["o.ico"]⟩ img0 (by decide)).1,
    (C5_ico_resize kernel0 ⟨["o.ico"]⟩ img0 (by decide)).2⟩

/-! ## Claim C6: the batch loop -/

/-- The running success counter equals its start value plus the number of
successful conversions among the remaining files. -/
theorem successCountAux_eq {e : Type} (conv : FsPath → Except e FsPath)
    (acc : Nat) (files : List FsPath) :
    successCountAux conv acc files
      = acc + files.countP (fun f => isOkB (conv f)) := by
  induction files generalizing acc with
  | nil => simp [successCountAux]
  | cons f rest ih =>
    cases h : conv f with
    | ok p => simp [successCountAux, h, ih, List.countP_cons, isOkB]; omega
    | error err => simp [successCountAux, h, ih, List.countP_cons, isOkB]

/-- Claim C6: the batch loop hands every input file, in order, to the
converter exactly once — each file's record depends only on that file, so one
file's failure (a caught exception) never aborts the loop or affects another
file's conversion — and afterwards the number of records equals the number of
input files (attempted) while `success_count` equals the number of files whose
conversion succeeded. -/
theorem C6_batch_loop :
    ∀ (e : Type) (conv : FsPath → Except e FsPath) (files : List FsPath),
    batchRecords conv files = files.map (fun f => (f, conv f))
    ∧ (batchRecords conv files).length = files.length
    ∧ successCount conv files = files.countP (fun f => isOkB (conv f)) := by
  intro e conv files
  have hrec : batchRecords conv files = files.map (fun f => (f, conv f)) := by
    induction files with
    | nil => rfl
    | cons f rest ih => simp [batchRecords, ih]
  refine ⟨hrec, by rw [hrec]; simp, ?_⟩
  unfold successCount
  rw [successCountAux_eq]
  omega

/-! ## Claim C7: the exit code of main -/

/-- Claim C7: `main` exits with 0 exactly when argument validation passed, an
output format was determined, and at least one input file converted
successfully; in every other case — including a failed validation, an empty
input list, or no determinable format — it exits with 1, and 0 and 1 are the
only exit codes of this sequential model. -/
theorem C7_exit_code :
    ∀ (argsValid : Bool) (files : List FsPath) (fmtArg : Option String)
      (outputArg : Option FsPath)
      (conv : String → FsPath → Except ConvError FsPath),
    (mainRun argsValid files fmtArg outputArg conv = 0 ↔
      argsValid = true
      ∧ ∃ fmt, resolveFormat files fmtArg outputArg = some fmt
        ∧ 0 < successCount (conv fmt) files)
    ∧ (mainRun argsValid files fmtArg outputArg conv = 0
      ∨ mainRun argsValid files fmtArg outputArg conv = 1) := by
  intro argsValid files fmtArg outputArg conv
  cases argsValid with
  | false => simp [mainRun]
  | true =>
    by_cases hf : files = []
    · subst hf
      simp [mainRun, successCount, successCountAux]
    · cases hr : resolveFormat files fmtArg outputArg with
      | none => simp [mainRun, hf, hr]
      | some fmt =>
        by_cases hc : 0 < successCount (conv fmt) files
        · simp [mainRun, hf, hr, hc]
        · simp [mainRun, hf, hr, hc]

/-! ## Claim C8: case-insensitivity of format tokens -/

/-- Success of a `convert` call is determined by the membership check, the
identity check, the dispatcher lookup — all three on the lower-cased tokens —
and the decode outcome. -/
theorem convert_out_isOkB (kernel : ResampleKernel) (fs : FS) (inP : FsPath)
    (fmt : String) (dirOpt : Option FsPath) (decoded : Except String Img) :
    isOkB (convert kernel fs inP fmt dirOpt decoded).out
      = (decide (strLower fmt ∈ supported_formats)
        && !(decide (inputExtOf inP = strLower fmt))
        && (getConversionMethod (inputExtOf inP) (strLower fmt)).isSome
        && isOkB decoded) := by
  by_cases h1 : strLower fmt ∈ supported_formats
  · by_cases h2 : inputExtOf inP = strLower fmt
    · simp [convert, h1, h2, isOkB]
    · cases h3 : getConversionMethod (inputExtOf inP) (strLower fmt) with
      | none => simp [convert, h1, h2, h3, isOkB]
      | some r =>
        cases decoded with
        | error e => simp [convert, h1, h2, h3, isOkB]
        | ok img => simp [convert, h1, h2, h3, isOkB]
  · simp [convert, h1, isOkB]

/-- Claim C8 (counterexample): with input `image.jpg` and no output location,
`convert` accepts both the token `PNG` and the token `png`, but the returned
output paths differ — `image.PNG` versus `image.png` — because lines 55 and 57
of src/converter.py interpolate the raw, non-lower-cased token into the output
name.  So the two calls do not behave identically. -/
theorem C8_counterexample :
    (convert kernel0 fsNone ⟨["image.jpg"]⟩ "PNG" none (Except.ok img0)).out
      = Except.ok ⟨["image.PNG"]⟩
    ∧ (convert kernel0 fsNone ⟨["image.jpg"]⟩ "png" none (Except.ok img0)).out
      = Except.ok ⟨["image.png"]⟩
    ∧ (⟨["image.PNG"]⟩ : FsPath) ≠ ⟨["image.png"]⟩ := by
  refine ⟨by decide, by decide, by decide⟩

/-- Claim C8 (amended): the acceptance/rejection decision of `convert` is
case-insensitive in the format token — any two tokens with the same
lower-casing are accepted or rejected alike — and the input extension is
lower-cased before dispatch, so `image.JPG` and `image.jpg` resolve to the
same input format; however the resolved output path interpolates the format
token verbatim, so differently-cased tokens produce differently-cased output
file names. -/
theorem C8_amended_case_insensitive :
    (∀ (kernel : ResampleKernel) (fs : FS) (inP : FsPath)
        (dirOpt : Option FsPath) (decoded : Except String Img)
        (fmt1 fmt2 : String),
      strLower fmt1 = strLower fmt2 →
      isOkB (convert kernel fs inP fmt1 dirOpt decoded).out
        = isOkB (convert kernel fs inP fmt2 dirOpt decoded).out)
    ∧ inputExtOf ⟨["image.JPG"]⟩ = inputExtOf ⟨["image.jpg"]⟩
    ∧ (∀ (fs : FS) (inP : FsPath) (fmt : String),
        resolveOutputPath fs inP fmt none = inP.withSuffix ("." ++ fmt)) := by
  refine ⟨?_, by decide, fun fs inP fmt => rfl⟩
  intro kernel fs inP dirOpt decoded fmt1 fmt2 h
  rw [convert_out_isOkB, convert_out_isOkB, h]

/-- Claim C8 (witness): `PNG` and `png` lower-case alike, hence are accepted
alike on `image.jpg`; the raw token still lands in the output name. -/
theorem C8_amended_case_insensitive_witness :
    strLower "PNG" = strLower "png"
    ∧ isOkB (convert kernel0 fsNone ⟨["image.jpg"]⟩ "PNG" none (Except.ok img0)).out
      = isOkB (convert kernel0 fsNone ⟨["image.jpg"]⟩ "png" none (Except.ok img0)).out
    ∧ inputExtOf ⟨["image.JPG"]⟩ = inputExtOf ⟨["image.jpg"]⟩
    ∧ resolveOutputPath fsNone ⟨["image.jpg"]⟩ "PNG" none = ⟨["image.PNG"]⟩ := by
  refine ⟨by decide,
    C8_amended_case_insensitive.1 kernel0 fsNone ⟨["image.jpg"]⟩ none
      (Except.ok img0) "PNG" "png" (by decide),
    C8_amended_case_insensitive.2.1,
    by decide⟩

/-! ## Claim C9: batch-list file reading -/

/-- The existence oracle of the counterexample: `a.png`, `b.png` and the
current directory `.` exist. -/
def exW : FsPath → Bool := fun p =>
  decide (p = ⟨["a.png"]⟩) || decide (p = ⟨["b.png"]⟩) || decide (p = ⟨[]⟩)

/-- Claim C9 (counterexample): on a batch file whose second line is blank,
with `a.png`, `b.png` and the current directory existing, the resolved list is
`[a.png, ., b.png]` — the blank line contributes the entry `Path('.')`
(pathlib turns the stripped empty string into `.`, which exists) instead of
being skipped, so the list is not `[a.png, b.png]` as the claim requires. -/
theorem C9_counterexample :
    pyStrip "" = ""
    ∧ pathOfString "" = ⟨[]⟩
    ∧ exW ⟨[]⟩ = true
    ∧ getInputFilesBatch exW ["a.png", "", "b.png"]
      = [⟨["a.png"]⟩, ⟨[]⟩, ⟨["b.png"]⟩]
    ∧ getInputFilesBatch exW ["a.png", "", "b.png"]
      ≠ [⟨["a.png"]⟩, ⟨["b.png"]⟩] := by
  refine ⟨by decide, by decide, by decide, by decide, by decide⟩

/-- Claim C9 (amended): reading a batch-list file resolves, in order, the
stripped path of every line that exists and skips the rest; a line naming a
missing path is silently skipped, but a blank line is not special-cased: it
denotes `Path('.')` (the empty string normalizes to the current directory) and
so contributes an entry whenever the current directory exists. -/
theorem C9_amended_batch_lines :
    (∀ (fsExists : FsPath → Bool) (lines : List String),
      getInputFilesBatch fsExists lines
        = ((lines.map (fun l => pathOfString (pyStrip l))).filter fsExists))
    ∧ pathOfString "" = ⟨[]⟩ := by
  refine ⟨fun fsExists lines => ?_, by decide⟩
  induction lines with
  | nil => rfl
  | cons l rest ih =>
    by_cases h : fsExists (pathOfString (pyStrip l))
    · simp [getInputFilesBatch, h, ih]
    · simp [getInputFilesBatch, h, ih]

/-! ## Claim C10: the written encoding follows the resolved path -/

/-- Claim C10: when the given output location is an existing regular file, a
successful `convert` writes to exactly that file, and both the PIL encoder
choice and the mode/size normalization are keyed on that file's lower-cased
extension — the requested output format string appears nowhere in the
performed effects, so it is ignored for encoding in that case. -/
theorem C10_encoding_keyed_on_path :
    ∀ (kernel : ResampleKernel) (fs : FS) (inP : FsPath) (fmt : String)
      (dir : FsPath) (img : Img),
    fs.isFile dir = true →
    isOkB (convert kernel fs inP fmt (some dir) (Except.ok img)).out = true →
    (convert kernel fs inP fmt (some dir) (Except.ok img)).out = Except.ok dir
    ∧ (convert kernel fs inP fmt (some dir) (Except.ok img)).effects
      = [Effect.mkdirParents dir.parent,
         Effect.save dir (strLower (suffixOf dir.name))
           (imageToImage kernel dir img)] := by
  intro kernel fs inP fmt dir img hfile hok
  rw [convert_out_isOkB] at hok
  simp only [Bool.and_eq_true, decide_eq_true_eq, Bool.not_eq_true',
    decide_eq_false_iff_not] at hok
  obtain ⟨⟨⟨h1, h2⟩, h3⟩, -⟩ := hok
  obtain ⟨r, hr⟩ := Option.isSome_iff_exists.mp h3
  have hres : resolveOutputPath fs inP fmt (some dir) = dir := by
    simp [resolveOutputPath, hfile]
  constructor
  · simp [convert, h1, h2, hr, hres]
  · simp [convert, h1, h2, hr, hres]

/-- Claim C10 (witness): converting `a.gif` with requested format `jpg` into
the existing file `target.png` writes to `target.png`, encoded as `.png` —
not as the requested `jpg`. -/
theorem C10_encoding_keyed_on_path_witness :
    fsTarget.isFile ⟨["target.png"]⟩ = true
    ∧ isOkB (convert kernel0 fsTarget ⟨["a.gif"]⟩ "jpg" (some ⟨["target.png"]⟩)
        (Except.ok img0)).out = true
    ∧ (convert kernel0 fsTarget ⟨["a.gif"]⟩ "jpg" (some ⟨["target.png"]⟩)
        (Except.ok img0)).out = Except.ok ⟨["target.png"]⟩
    ∧ (convert kernel0 fsTarget ⟨["a.gif"]⟩ "jpg" (some ⟨["target.png"]⟩)
        (Except.ok img0)).effects
      = [Effect.mkdirParents ⟨[]⟩,
         Effect.save ⟨["target.png"]⟩ ".png"
           (imageToImage kernel0 ⟨["target.png"]⟩ img0)] := by
  have h := C10_encoding_keyed_on_path kernel0 fsTarget ⟨["a.gif"]⟩ "jpg"
    ⟨["target.png"]⟩ img0 (by decide) (by decide)
  have h2 := h.2
  rw [show FsPath.parent ⟨["target.png"]⟩ = (⟨[]⟩ : FsPath) from by decide] at h2
  rw [show strLower (suffixOf (FsPath.name ⟨["target.png"]⟩)) = ".png"
    from by decide] at h2
  exact ⟨by decide, by decide, h.1, h2⟩

end FileConv
